import Mathlib

/-!
# Verification of the `indelve` search orchestrator (`indelve/main.py`)

A shallow embedding of the `Indelve` class: provider loading (`__init__`),
registry enumeration (`listProviders`, `getProviderDescription`), and the
`refresh`/`search` lifecycle with relevance-sorted aggregation.

Python exceptions are modelled with `Except`; the process-wide warning stream
is modelled as an explicit list of the identifiers passed to `warn`.  The
module import machinery and the concrete provider modules are external to
the orchestrator and are modelled as an environment (`Env`).
-/

/-- A Python value, as far as the orchestrator's argument checks look at one:
`isinstance(query, str)` only distinguishes strings from everything else. -/
inductive PyVal where
  | str (s : String)
  | int (n : Int)
  | pyNone
  deriving DecidableEq, Repr

/-- The Python exceptions (and exception classes from the `bad` module) that
the orchestrator raises or handles.  `ProviderLoadWarning` is a warning, not
an exception, and is modelled separately as the warning stream. -/
inductive PyError where
  | typeError (msg : String)
  | valueError (msg : String)
  | keyError (key : String)
  | assertionError
  | notImplementedError (msg : String)
  | providerLoadError (provider : String)
  | noProvidersError
  | otherError (msg : String)
  deriving DecidableEq, Repr

/-- One search result.  Modelled from the spec: an item is "a mapping requiring
at least a `relevance` key; all other keys are provider-defined and opaque to
the orchestrator".  `relevance?` is `none` when the mapping lacks the
`relevance` key; `payload` stands for the provider-defined remaining fields. -/
structure Item where
  relevance? : Option Int
  payload : Nat
  deriving DecidableEq, Repr

/-- Modelled from the spec: `isItemDict` is imported from the `utilities`
module, which is not among the provided sources.  Per the spec the minimal
item shape is a mapping with at least a `relevance` key, so the check is that
the `relevance` field is present. -/
def isItemDict (item : Item) : Bool :=
  item.relevance?.isSome

/-- `item["relevance"]`, as used by the sort key.  Only ever applied to items
whose `relevance` key is present (a missing key raises `KeyError` instead,
see `Indelve.search`). -/
def relKey (item : Item) : Int :=
  item.relevance?.getD 0

/-- A loaded provider instance: the object returned by
`providerModule.Provider()`.  Its `search` may raise (`Except.error`), and its
`refresh` likewise. -/
structure Provider where
  search : String → Except PyError (List Item)
  refresh : Bool → Except PyError Unit

/-- A provider module `indelve.providers.<name>`: calling its `Provider`
class (`construct`) and the class's static `description` attribute,
a Python dict modelled as an association list. -/
structure ProviderModule where
  construct : Except PyError Provider
  description : List (String × String)

/-- How `import_module("indelve.providers." + provider)` can fail:
`__init__` catches both `ImportError` and `KeyError`, while
`getProviderDescription` catches only `ImportError`. -/
inductive ImportFail where
  | importError
  | keyError (key : String)
  deriving DecidableEq, Repr

/-- The world outside the orchestrator: the import machinery for provider
modules, and the provider package manifest.  `registryAll` is modelled from
the spec: `indelve.providers.__init__.__all__`, "the fixed, declared set of
known provider identifiers (a manifest owned by the provider package)". -/
structure Env where
  importMod : String → Except ImportFail ProviderModule
  registryAll : List String

/-- The `providers` argument of `Indelve.__init__`: `None` (the default),
a list of identifier strings, or any other Python value (which fails the
`isinstance(providers, list)` check). -/
inductive ProvidersArg where
  | default
  | list (ids : List String)
  | nonList (v : PyVal)

/-- `d[k] = v` on a Python dict modelled as an association list: replaces the
value in place if the key is present, appends otherwise. -/
def dictInsert (k : String) (v : α) : List (String × α) → List (String × α)
  | [] => [(k, v)]
  | (k', v') :: rest => if k' = k then (k, v) :: rest else (k', v') :: dictInsert k v rest

/-- The orchestrator: its only state is `self.providerInstances`, the dict of
provider instances keyed by identifier. -/
structure Indelve where
  providerInstances : List (String × Provider)

namespace Indelve

/-- The loading loop of `Indelve.__init__` (lines 59-67): for each identifier
the module is imported — on `ImportError`/`KeyError` warn with the identifier
and skip — then `Provider()` is called, any exception from it propagating.
Returns the instance table and the warning stream. -/
def loadProviders (env : Env) :
    List String → List (String × Provider) → List String →
    Except PyError (List (String × Provider)) × List String
  | [], tbl, warns => (.ok tbl, warns)
  | p :: rest, tbl, warns =>
    match env.importMod p with
    | .error _ => loadProviders env rest tbl (warns ++ [p])
    | .ok m =>
      match m.construct with
      | .error e => (.error e, warns)
      | .ok inst => loadProviders env rest (dictInsert p inst tbl) warns

/-- `Indelve.__init__(providers)`: type-check the argument, resolve `None` to
the full registry list, load the providers, and raise `NoProvidersError` if
the instance table came out empty.  The second component is the warning
stream (the identifiers passed to `warn(... , ProviderLoadWarning)`). -/
def init (env : Env) (providers : ProvidersArg) :
    Except PyError Indelve × List String :=
  match providers with
  | .nonList _ => (.error (.typeError "`providers` must be a list or None."), [])
  | .default =>
    match loadProviders env env.registryAll [] [] with
    | (.error e, warns) => (.error e, warns)
    | (.ok tbl, warns) =>
      if tbl.isEmpty then (.error .noProvidersError, warns) else (.ok ⟨tbl⟩, warns)
  | .list ids =>
    match loadProviders env ids [] [] with
    | (.error e, warns) => (.error e, warns)
    | (.ok tbl, warns) =>
      if tbl.isEmpty then (.error .noProvidersError, warns) else (.ok ⟨tbl⟩, warns)

/-- `Indelve.getProviderDescription(provider)` (lines 100-127): check the
argument is a string, import the module turning `ImportError` into
`ProviderLoadError` (an uncaught `KeyError` propagates), and require both
the `short` and the `long` key of the description dict. -/
def getProviderDescription (env : Env) (provider : PyVal) :
    Except PyError (List (String × String)) :=
  match provider with
  | .str p =>
    match env.importMod p with
    | .error .importError => .error (.providerLoadError p)
    | .error (.keyError k) => .error (.keyError k)
    | .ok m =>
      if (m.description.lookup "short").isNone || (m.description.lookup "long").isNone then
        .error (.notImplementedError
          ("Provider \x27" ++ p ++ "\x27 does not have a proper description dictionary."))
      else
        .ok m.description
  | _ => .error (.valueError "`provider` must be a string.")

/-- The description loop of `Indelve.listProviders` (lines 94-97):
`providerDict[provider] = self.getProviderDescription(provider)` for each
registry identifier; an exception from the lookup propagates out. -/
def listDescriptions (env : Env) :
    List String → List (String × List (String × String)) →
    Except PyError (List (String × List (String × String)))
  | [], acc => .ok acc
  | p :: rest, acc =>
    match getProviderDescription env (.str p) with
    | .error e => .error e
    | .ok d => listDescriptions env rest (dictInsert p d acc)

/-- The two result shapes of `listProviders`: a plain list of identifiers, or
a dict of identifier to description dict. -/
inductive ProvidersListing where
  | names (ids : List String)
  | withDescriptions (d : List (String × List (String × String)))

/-- `Indelve.listProviders(descriptions)` (lines 74-97): the registry list
as-is, or — when descriptions are requested — the dict built by looking up
every identifier's description. -/
def listProviders (env : Env) (descriptions : Bool) :
    Except PyError ProvidersListing :=
  if descriptions then
    match listDescriptions env env.registryAll [] with
    | .error e => .error e
    | .ok d => .ok (.withDescriptions d)
  else
    .ok (.names env.registryAll)

/-- The loop of `Indelve.refresh` (lines 138-140): call every instance's
`refresh(force)`; an exception propagates. -/
def refreshLoop (force : Bool) : List (String × Provider) → Except PyError Unit
  | [] => .ok ()
  | (_, p) :: rest =>
    match p.refresh force with
    | .error e => .error e
    | .ok _ => refreshLoop force rest

/-- `Indelve.refresh(force)`: run the loop over `self.providerInstances`.
The second component is the state of the orchestrator object afterwards (the
method never assigns to `self.providerInstances`). -/
def refresh (self : Indelve) (force : Bool) : Except PyError Unit × Indelve :=
  (refreshLoop force self.providerInstances, self)

/-- The provider loop of `Indelve.search` (lines 159-169): get this
provider's results, treating a `ValueError` as zero results (`continue`);
then `for item in items: assert isItemDict(item)` — note the source asserts
over the accumulated `items`, not the fresh `results` — and finally
`items.extend(results)`. -/
def searchLoop (q : String) :
    List (String × Provider) → List Item → Except PyError (List Item)
  | [], items => .ok items
  | (_, p) :: rest, items =>
    match p.search q with
    | .error (.valueError _) => searchLoop q rest items
    | .error e => .error e
    | .ok results =>
      if items.all isItemDict then searchLoop q rest (items ++ results)
      else .error .assertionError

/-- `items.sort(key=lambda a: a["relevance"])`: stable sort, ascending in the
`relevance` value. -/
def sortByRelevance (items : List Item) : List Item :=
  items.mergeSort (fun a b => relKey a ≤ relKey b)

/-- `Indelve.search(query)` (lines 143-175): query must be a string
(`TypeError`) and non-empty (`ValueError`); then the provider loop runs, and
the collected items are sorted by their `relevance` key.  `list.sort` applies
the key function to every element, so a collected item lacking the
`relevance` key raises `KeyError("relevance")`.  The second component is the
state of the orchestrator object afterwards. -/
def search (self : Indelve) (query : PyVal) :
    Except PyError (List Item) × Indelve :=
  match query with
  | .str q =>
    if q.length = 0 then
      (.error (.valueError "Parameter \x27query\x27 shouldn\x27t be empty."), self)
    else
      match searchLoop q self.providerInstances [] with
      | .error e => (.error e, self)
      | .ok items =>
        if items.all (fun i => i.relevance?.isSome) then
          (.ok (sortByRelevance items), self)
        else
          (.error (.keyError "relevance"), self)
  | _ => (.error (.typeError "Parameter \x27query\x27 should be a string."), self)

/-- The concatenation, in table order, of every provider's result list for a
query (providers that raise contribute nothing; only used under hypotheses
saying no provider raises). -/
def combined (insts : List (String × Provider)) (q : String) : List Item :=
  (insts.map (fun np =>
    match np.2.search q with
    | .ok rs => rs
    | .error _ => [])).flatten

/-- A provider whose `search` succeeds on `q` and returns only well-formed
items (the `relevance` key present on each). -/
def okValid (p : Provider) (q : String) : Prop :=
  ∃ rs, p.search q = .ok rs ∧ rs.all isItemDict = true

/-- Whether an identifier's module imports successfully. -/
def importOk (env : Env) (id : String) : Bool :=
  match env.importMod id with
  | .ok _ => true
  | .error _ => false

/-- The provider instance an identifier loads to: `some` when both the import
and the `Provider()` call succeed, `none` otherwise. -/
def loads (env : Env) (id : String) : Option Provider :=
  match env.importMod id with
  | .ok m =>
    match m.construct with
    | .ok p => some p
    | .error _ => none
  | .error _ => none

/-! ### Concrete fixtures

Stub providers and a stub environment, used to instantiate the general
theorems at concrete inputs. -/

/-- A stub provider returning two items, of relevance 3 and 1. -/
def stubP1 : Provider := ⟨fun _ => .ok [⟨some 3, 0⟩, ⟨some 1, 1⟩], fun _ => .ok ()⟩

/-- A stub provider returning one item, of relevance 2. -/
def stubP2 : Provider := ⟨fun _ => .ok [⟨some 2, 2⟩], fun _ => .ok ()⟩

/-- A stub provider that rejects every query as invalid input
(raises `ValueError`). -/
def valueErrProvider : Provider :=
  ⟨fun _ => .error (.valueError "bad query"), fun _ => .ok ()⟩

/-- A stub provider returning one malformed item: the `relevance` key is
absent, so `isItemDict` fails on it. -/
def badItemProvider : Provider := ⟨fun _ => .ok [⟨none, 0⟩], fun _ => .ok ()⟩

/-- A stub provider module with a well-formed description dict. -/
def betaModule : ProviderModule :=
  ⟨.ok stubP2, [("short", "Beta"), ("long", "The beta provider")]⟩

/-- A stub provider module whose description dict lacks the `long` key. -/
def gammaModule : ProviderModule := ⟨.ok stubP2, [("short", "Gamma")]⟩

/-- A stub environment: the registry declares `alpha` and `beta`; importing
`alpha` fails with `ImportError`, `beta` and `gamma` import fine, and every
other identifier fails with `ImportError`. -/
def alphaBetaEnv : Env :=
  ⟨fun id =>
    if id = "beta" then .ok betaModule
    else if id = "gamma" then .ok gammaModule
    else .error .importError,
   ["alpha", "beta"]⟩

end Indelve

/-! ## Theorems -/

namespace Indelve

/-- C4: for every orchestrator, `search` with a non-string query fails with
`TypeError` and `search("")` fails with `ValueError`; since this holds for
every instance table whatsoever and the orchestrator state is returned
untouched, no provider's `search` can have been invoked. -/
theorem search_validates_query (ind : Indelve) :
    (∀ v : PyVal, (∀ s, v ≠ PyVal.str s) →
      Indelve.search ind v
        = (.error (.typeError "Parameter \x27query\x27 should be a string."), ind))
    ∧ Indelve.search ind (.str "")
        = (.error (.valueError "Parameter \x27query\x27 shouldn\x27t be empty."), ind) := by
  constructor
  · intro v hv
    cases v with
    | str s => exact absurd rfl (hv s)
    | int n => rfl
    | pyNone => rfl
  · rfl

/-- Witness for `search_validates_query`: a concrete orchestrator with one
working provider, a concrete non-string query, and the empty query. -/
theorem search_validates_query_witness :
    (∀ s, PyVal.int 5 ≠ PyVal.str s)
    ∧ Indelve.search ⟨[("p1", stubP1)]⟩ (.int 5)
        = (.error (.typeError "Parameter \x27query\x27 should be a string."),
           ⟨[("p1", stubP1)]⟩)
    ∧ Indelve.search ⟨[("p1", stubP1)]⟩ (.str "")
        = (.error (.valueError "Parameter \x27query\x27 shouldn\x27t be empty."),
           ⟨[("p1", stubP1)]⟩) :=
  ⟨fun _ h => PyVal.noConfusion h,
   (search_validates_query ⟨[("p1", stubP1)]⟩).1 (.int 5) (fun _ h => PyVal.noConfusion h),
   (search_validates_query ⟨[("p1", stubP1)]⟩).2⟩

/-- C6 (code bug): the assertion loop of `search` iterates over the
accumulated `items` instead of the freshly returned `results`.  With a single
provider returning one malformed item, the item is included in the combined
sequence with no assertion ever raised, and `search` then fails with
`KeyError("relevance")` from the sort — not with `AssertionError`.  With a
second, well-formed provider after it, `AssertionError` is raised only while
processing that second provider, i.e. after the malformed item was already
included. -/
theorem search_malformed_item_not_asserted :
    searchLoop "q" [("p", badItemProvider)] [] = .ok [⟨none, 0⟩]
    ∧ isItemDict ⟨none, 0⟩ = false
    ∧ (Indelve.search ⟨[("p", badItemProvider)]⟩ (.str "q")).1
        = .error (.keyError "relevance")
    ∧ (Indelve.search ⟨[("p", badItemProvider)]⟩ (.str "q")).1
        ≠ .error .assertionError
    ∧ searchLoop "q" [("p", badItemProvider), ("p2", stubP2)] []
        = .error .assertionError := by
  have h3 : (Indelve.search ⟨[("p", badItemProvider)]⟩ (.str "q")).1
      = .error (.keyError "relevance") := rfl
  refine ⟨rfl, rfl, h3, ?_, rfl⟩
  rw [h3]
  simp

/-- C9: neither `refresh` nor `search` changes the provider instance table:
the orchestrator state they return carries exactly the table it started
with. -/
theorem providerInstances_fixed (ind : Indelve) (force : Bool) (q : PyVal) :
    ((Indelve.refresh ind force).2).providerInstances = ind.providerInstances
    ∧ ((Indelve.search ind q).2).providerInstances = ind.providerInstances := by
  constructor
  · rfl
  · cases q with
    | str s =>
      unfold Indelve.search
      dsimp only
      split
      · rfl
      · split
        · rfl
        · split <;> rfl
    | int n => rfl
    | pyNone => rfl

/-- C10: constructing with `providers = []` passes the list type check, never
consults the environment (the result is the same for every `Env`), emits no
warnings, and raises `NoProvidersError`; the empty list is not the
omitted-argument sentinel, which with `alphaBetaEnv` would have loaded the
registry and succeeded. -/
theorem init_empty_list_fatal (env : Env) :
    Indelve.init env (.list []) = (.error .noProvidersError, [])
    ∧ ∃ ind, (Indelve.init alphaBetaEnv .default).1 = .ok ind := by
  exact ⟨rfl, ⟨⟨[("beta", stubP2)]⟩, rfl⟩⟩

end Indelve

namespace Indelve

/-- Each description lookup that succeeds lets the `listProviders` description
loop continue with the next identifier. -/
theorem listDescriptions_cons_ok (env : Env) (p : String) (rest : List String)
    (acc : List (String × List (String × String))) (d : List (String × String))
    (hd : getProviderDescription env (.str p) = .ok d) :
    listDescriptions env (p :: rest) acc
      = listDescriptions env rest (dictInsert p d acc) := by
  simp only [listDescriptions, hd]

/-- A description lookup that raises makes the description loop raise the
same error. -/
theorem listDescriptions_cons_error (env : Env) (p : String) (rest : List String)
    (acc : List (String × List (String × String))) (e : PyError)
    (hp : getProviderDescription env (.str p) = .error e) :
    listDescriptions env (p :: rest) acc = .error e := by
  simp only [listDescriptions, hp]

/-- An identifier whose import fails with `ImportError` makes
`getProviderDescription` raise `ProviderLoadError` for it. -/
theorem getProviderDescription_importError (env : Env) (id : String)
    (hid : env.importMod id = .error .importError) :
    getProviderDescription env (.str id) = .error (.providerLoadError id) := by
  simp only [getProviderDescription, hid]

/-- The first identifier of the registry whose import fails with
`ImportError` makes the description loop return `ProviderLoadError` for it,
dropping everything after it. -/
theorem listDescriptions_error (env : Env) (id : String) (rest : List String)
    (hid : env.importMod id = .error .importError) :
    ∀ (pre : List String) (acc : List (String × List (String × String))),
      (∀ p ∈ pre, ∃ d, getProviderDescription env (.str p) = .ok d) →
      listDescriptions env (pre ++ id :: rest) acc
        = .error (.providerLoadError id) := by
  intro pre
  induction pre with
  | nil =>
    intro acc _
    rw [List.nil_append]
    exact listDescriptions_cons_error env id rest acc _
      (getProviderDescription_importError env id hid)
  | cons p pre ih =>
    intro acc hpre
    obtain ⟨d, hd⟩ := hpre p (List.mem_cons_self p pre)
    rw [List.cons_append, listDescriptions_cons_ok env p _ acc d hd]
    exact ih _ (fun x hx => hpre x (List.mem_cons_of_mem p hx))

/-- C7 (counterexample): with the registry `["alpha", "beta"]` where `alpha`
fails to import and `beta` has a well-formed description, requesting
descriptions does NOT still produce `beta`'s entry: the whole call fails with
`ProviderLoadError("alpha")`, even though `beta`'s description lookup would
have succeeded. -/
theorem listProviders_aborts_counterexample :
    Indelve.listProviders alphaBetaEnv true = .error (.providerLoadError "alpha")
    ∧ getProviderDescription alphaBetaEnv (.str "beta")
        = .ok [("short", "Beta"), ("long", "The beta provider")] :=
  ⟨rfl, rfl⟩

/-- C7 (amended): when descriptions are requested and an identifier's import
fails with `ImportError`, the per-entry `ProviderLoadError` propagates out of
`listProviders`, aborting the enumeration: no mapping is returned and the
remaining identifiers' entries are not produced. -/
theorem listProviders_propagates_load_error (env : Env) (pre : List String)
    (id : String) (rest : List String)
    (hreg : env.registryAll = pre ++ id :: rest)
    (hpre : ∀ p ∈ pre, ∃ d, getProviderDescription env (.str p) = .ok d)
    (hid : env.importMod id = .error .importError) :
    Indelve.listProviders env true = .error (.providerLoadError id) := by
  unfold listProviders
  rw [if_pos rfl, hreg, listDescriptions_error env id rest hid pre [] hpre]

/-- Witness for `listProviders_propagates_load_error`: the stub environment,
with the failing identifier first in the registry. -/
theorem listProviders_propagates_load_error_witness :
    (alphaBetaEnv.registryAll = [] ++ "alpha" :: ["beta"]
      ∧ alphaBetaEnv.importMod "alpha" = .error .importError)
    ∧ Indelve.listProviders alphaBetaEnv true
        = .error (.providerLoadError "alpha") :=
  ⟨⟨rfl, rfl⟩,
   listProviders_propagates_load_error alphaBetaEnv [] "alpha" ["beta"] rfl
     (by intro p hp; exact absurd hp (List.not_mem_nil p)) rfl⟩

/-- C8: for a provider identifier whose module imports successfully,
`getProviderDescription` fails with `NotImplementedError` (a programming
error, not a runtime/user error) whenever the description dict lacks the
`short` or the `long` key, and otherwise returns that dict, which then
contains both keys. -/
theorem getProviderDescription_requires_keys (env : Env) (p : String)
    (m : ProviderModule) (him : env.importMod p = .ok m) :
    (((m.description.lookup "short").isNone
        || (m.description.lookup "long").isNone) = true →
      getProviderDescription env (.str p)
        = .error (.notImplementedError
            ("Provider \x27" ++ p ++ "\x27 does not have a proper description dictionary.")))
    ∧ ((m.description.lookup "short").isSome = true →
       (m.description.lookup "long").isSome = true →
      getProviderDescription env (.str p) = .ok m.description
        ∧ (m.description.lookup "short").isSome = true
        ∧ (m.description.lookup "long").isSome = true) := by
  constructor
  · intro hmiss
    simp [getProviderDescription, him, hmiss]
  · intro hs hl
    refine ⟨?_, hs, hl⟩
    cases h1 : List.lookup "short" m.description with
    | none => rw [h1] at hs; exact absurd hs (by simp)
    | some ds =>
      cases h2 : List.lookup "long" m.description with
      | none => rw [h2] at hl; exact absurd hl (by simp)
      | some dl => simp [getProviderDescription, him, h1, h2]

/-- Witness for `getProviderDescription_requires_keys`: `beta`'s description
has both keys and is returned; `gamma`'s lacks `long` and yields
`NotImplementedError`. -/
theorem getProviderDescription_requires_keys_witness :
    (alphaBetaEnv.importMod "beta" = .ok betaModule
      ∧ alphaBetaEnv.importMod "gamma" = .ok gammaModule)
    ∧ getProviderDescription alphaBetaEnv (.str "beta") = .ok betaModule.description
    ∧ getProviderDescription alphaBetaEnv (.str "gamma")
        = .error (.notImplementedError
            ("Provider \x27gamma\x27 does not have a proper description dictionary.")) :=
  ⟨⟨rfl, rfl⟩,
   ((getProviderDescription_requires_keys alphaBetaEnv "beta" betaModule rfl).2
      rfl rfl).1,
   (getProviderDescription_requires_keys alphaBetaEnv "gamma" gammaModule rfl).1
      rfl⟩

end Indelve

namespace Indelve

/-- Looking up in a dict after a Python-style insert: the inserted key maps to
the new value, every other key is untouched. -/
theorem dictInsert_lookup (k : String) (v : α) (t : List (String × α)) (k' : String) :
    (dictInsert k v t).lookup k' = if k' = k then some v else t.lookup k' := by
  induction t with
  | nil =>
    by_cases h : k' = k
    · subst h; simp [dictInsert, List.lookup]
    · have hbe : (k' == k) = false := by simp [h]
      simp [dictInsert, List.lookup, hbe, h]
  | cons hd tl ih =>
    obtain ⟨k1, v1⟩ := hd
    by_cases h1 : k1 = k
    · subst h1
      by_cases h : k' = k1
      · subst h; simp [dictInsert, List.lookup]
      · have hbe : (k' == k1) = false := by simp [h]
        simp [dictInsert, List.lookup, hbe, h]
    · by_cases h : k' = k1
      · subst h
        have hne : ¬k' = k := h1
        simp [dictInsert, h1, List.lookup, hne]
      · have hbe : (k' == k1) = false := by simp [h]
        simp [dictInsert, h1, List.lookup, hbe, h, ih]

/-- If no identifier of the list imports, the loading loop leaves the table
alone and warns once per identifier, in order. -/
theorem loadProviders_all_fail (env : Env) :
    ∀ (l : List String) (tbl : List (String × Provider)) (warns : List String),
      (∀ id ∈ l, importOk env id = false) →
      loadProviders env l tbl warns = (.ok tbl, warns ++ l) := by
  intro l
  induction l with
  | nil => intro tbl warns _; simp [loadProviders]
  | cons p rest ih =>
    intro tbl warns h
    have hp : importOk env p = false := h p (List.mem_cons_self p rest)
    cases him : env.importMod p with
    | ok m => simp [importOk, him] at hp
    | error e =>
      simp only [loadProviders, him]
      rw [ih _ _ (fun id hid => h id (List.mem_cons_of_mem _ hid))]
      simp

/-- The loading loop, when no listed identifier's constructor raises:
it succeeds, warns exactly on the identifiers whose import fails, and the
final table maps each listed importable identifier to its loaded instance
while leaving every other key as it was. -/
theorem loadProviders_ok (env : Env) :
    ∀ (l : List String) (tbl : List (String × Provider)) (warns : List String),
      (∀ id ∈ l, importOk env id = true → (loads env id).isSome = true) →
      ∃ tbl',
        loadProviders env l tbl warns
          = (.ok tbl', warns ++ l.filter (fun id => !importOk env id))
        ∧ ∀ id : String, tbl'.lookup id =
            if id ∈ l ∧ importOk env id = true then loads env id
            else tbl.lookup id := by
  intro l
  induction l with
  | nil =>
    intro tbl warns _
    exact ⟨tbl, by simp [loadProviders], by intro id; simp⟩
  | cons p rest ih =>
    intro tbl warns h
    cases him : env.importMod p with
    | error e =>
      have hpf : importOk env p = false := by simp [importOk, him]
      obtain ⟨tbl', heq, hlookup⟩ :=
        ih tbl (warns ++ [p]) (fun id hid himp => h id (List.mem_cons_of_mem _ hid) himp)
      refine ⟨tbl', ?_, ?_⟩
      · simp only [loadProviders, him, heq]
        rw [List.filter_cons_of_pos (by simp [hpf])]
        simp
      · intro id
        rw [hlookup id]
        by_cases hip : id = p
        · subst hip
          simp [hpf]
        · simp [List.mem_cons, hip]
    | ok m =>
      have hpt : importOk env p = true := by simp [importOk, him]
      have hsome := h p (List.mem_cons_self p rest) hpt
      cases hc : m.construct with
      | error e => simp [loads, him, hc] at hsome
      | ok inst =>
        have hloads : loads env p = some inst := by simp [loads, him, hc]
        obtain ⟨tbl', heq, hlookup⟩ :=
          ih (dictInsert p inst tbl) warns
            (fun id hid himp => h id (List.mem_cons_of_mem _ hid) himp)
        refine ⟨tbl', ?_, ?_⟩
        · simp only [loadProviders, him, hc, heq]
          rw [List.filter_cons_of_neg (by simp [hpt])]
        · intro id
          rw [hlookup id, dictInsert_lookup]
          by_cases hip : id = p
          · subst hip
            by_cases hmem : id ∈ rest
            · simp [hmem, hpt, hloads]
            · simp [hmem, hpt, hloads]
          · simp [List.mem_cons, hip]

/-- Whenever construction returns an orchestrator, its instance table is
nonempty: the `NoProvidersError` check rules out the empty table. -/
theorem init_ok_nonempty (env' : Env) (arg : ProvidersArg) (ind : Indelve)
    (warns : List String)
    (hinit : Indelve.init env' arg = (.ok ind, warns)) :
    ind.providerInstances ≠ [] := by
  cases arg with
  | nonList v => simp [init] at hinit
  | default =>
    rcases hl : loadProviders env' env'.registryAll [] [] with ⟨r, w⟩
    cases r with
    | error e => simp [init, hl] at hinit
    | ok tbl =>
      simp only [init, hl] at hinit
      by_cases hemp : tbl.isEmpty
      · simp [hemp] at hinit
      · simp [hemp] at hinit
        rw [← hinit.1]
        simpa [List.isEmpty_iff] using hemp
  | list ids =>
    rcases hl : loadProviders env' ids [] [] with ⟨r, w⟩
    cases r with
    | error e => simp [init, hl] at hinit
    | ok tbl =>
      simp only [init, hl] at hinit
      by_cases hemp : tbl.isEmpty
      · simp [hemp] at hinit
      · simp [hemp] at hinit
        rw [← hinit.1]
        simpa [List.isEmpty_iff] using hemp

/-- C2: with at least one importable identifier in the list and no importable
identifier whose constructor raises, construction succeeds, warns exactly on
(and with) the identifiers that failed to import, and the instance table
holds exactly the importable listed identifiers, each mapped to its loaded
provider instance. -/
theorem init_table_exactly_importable (env : Env) (l : List String)
    (hone : ∃ id ∈ l, importOk env id = true)
    (hctor : ∀ id ∈ l, importOk env id = true → (loads env id).isSome = true) :
    ∃ ind : Indelve,
      Indelve.init env (.list l)
        = (.ok ind, l.filter (fun id => !importOk env id))
      ∧ ∀ id : String,
          ind.providerInstances.lookup id
            = if id ∈ l ∧ importOk env id = true then loads env id else none := by
  obtain ⟨tbl', heq, hlookup⟩ := loadProviders_ok env l [] [] hctor
  obtain ⟨id0, hid0mem, hid0⟩ := hone
  have hne : tbl' ≠ [] := by
    intro hnil
    have hl0 := hlookup id0
    rw [hnil] at hl0
    simp [hid0mem, hid0] at hl0
    have h2 := hctor id0 hid0mem hid0
    rw [← hl0] at h2
    simp at h2
  refine ⟨⟨tbl'⟩, ?_, fun id => by simpa using hlookup id⟩
  simp only [init, heq]
  simp [List.isEmpty_iff, hne]

/-- Witness for `init_table_exactly_importable`: the stub environment and the
list `["alpha", "beta"]`, of which only `beta` is importable. -/
theorem init_table_exactly_importable_witness :
    ((∃ id ∈ ["alpha", "beta"], importOk alphaBetaEnv id = true)
      ∧ ∀ id ∈ ["alpha", "beta"],
          importOk alphaBetaEnv id = true → (loads alphaBetaEnv id).isSome = true)
    ∧ ∃ ind : Indelve,
        Indelve.init alphaBetaEnv (.list ["alpha", "beta"])
          = (.ok ind, List.filter (fun id => !importOk alphaBetaEnv id) ["alpha", "beta"])
        ∧ ∀ id : String,
            ind.providerInstances.lookup id
              = if id ∈ ["alpha", "beta"] ∧ importOk alphaBetaEnv id = true
                then loads alphaBetaEnv id else none := by
  refine ⟨⟨⟨"beta", by simp, rfl⟩, ?_⟩, ?_⟩
  · intro id hid himp
    fin_cases hid
    · exact absurd himp (by decide)
    · rfl
  · exact init_table_exactly_importable alphaBetaEnv ["alpha", "beta"]
      ⟨"beta", by simp, rfl⟩
      (by
        intro id hid himp
        fin_cases hid
        · exact absurd himp (by decide)
        · rfl)

/-- C3: when no listed identifier is importable, construction warns once per
identifier (in list order, carrying the identifier) and raises
`NoProvidersError`; and in general no orchestrator is ever constructed with
an empty instance table. -/
theorem init_all_unimportable_fatal (env : Env) (l : List String)
    (h : ∀ id ∈ l, importOk env id = false) :
    Indelve.init env (.list l) = (.error .noProvidersError, l)
    ∧ ∀ (env' : Env) (arg : ProvidersArg) (ind : Indelve) (warns : List String),
        Indelve.init env' arg = (.ok ind, warns) → ind.providerInstances ≠ [] := by
  constructor
  · have heq := loadProviders_all_fail env l [] [] h
    simp only [init, heq]
    simp
  · exact init_ok_nonempty

/-- Witness for `init_all_unimportable_fatal`: the list `["alpha", "omega"]`,
neither of which imports in the stub environment. -/
theorem init_all_unimportable_fatal_witness :
    (∀ id ∈ ["alpha", "omega"], importOk alphaBetaEnv id = false)
    ∧ Indelve.init alphaBetaEnv (.list ["alpha", "omega"])
        = (.error .noProvidersError, ["alpha", "omega"]) := by
  have hall : ∀ id ∈ ["alpha", "omega"], importOk alphaBetaEnv id = false := by
    intro id hid
    fin_cases hid
    · rfl
    · rfl
  exact ⟨hall, (init_all_unimportable_fatal alphaBetaEnv ["alpha", "omega"] hall).1⟩

end Indelve

namespace Indelve

/-- When every provider in the list succeeds with well-formed items, the
provider loop of `search` collects the concatenation of all result lists
after the accumulator. -/
theorem searchLoop_ok (q : String) :
    ∀ (insts : List (String × Provider)) (acc : List Item),
      acc.all isItemDict = true →
      (∀ np ∈ insts, okValid np.2 q) →
      searchLoop q insts acc = .ok (acc ++ combined insts q) := by
  intro insts
  induction insts with
  | nil => intro acc _ _; simp [searchLoop, combined]
  | cons np rest ih =>
    intro acc hacc h
    obtain ⟨n, p⟩ := np
    obtain ⟨rs, hps, hrs⟩ := h (n, p) (List.mem_cons_self _ _)
    have hps' : p.search q = Except.ok rs := hps
    simp only [searchLoop, hps', hacc, if_true]
    rw [ih (acc ++ rs) (by simp [List.all_append, hacc, hrs])
      (fun x hx => h x (List.mem_cons_of_mem _ hx))]
    simp [combined, hps', List.append_assoc]

/-- When every provider succeeds with well-formed items, the combined result
sequence consists of well-formed items. -/
theorem combined_all_itemDict (q : String) :
    ∀ (insts : List (String × Provider)),
      (∀ np ∈ insts, okValid np.2 q) →
      (combined insts q).all isItemDict = true := by
  intro insts
  induction insts with
  | nil => intro _; simp [combined]
  | cons np rest ih =>
    intro h
    obtain ⟨rs, hps, hrs⟩ := h np (List.mem_cons_self _ _)
    have hrest := ih (fun x hx => h x (List.mem_cons_of_mem _ hx))
    simp only [combined, List.map_cons, List.flatten_cons, hps, List.all_append]
    simp only [combined] at hrest
    simp [hrs, hrest]

/-- When every provider succeeds with well-formed items and the query is
valid, `search` returns the relevance-sorted combined sequence and leaves the
orchestrator untouched. -/
theorem search_ok (insts : List (String × Provider)) (q : String)
    (hq : q.length ≠ 0) (h : ∀ np ∈ insts, okValid np.2 q) :
    Indelve.search ⟨insts⟩ (.str q)
      = (.ok (sortByRelevance (combined insts q)), ⟨insts⟩) := by
  have hsl := searchLoop_ok q insts [] (by simp) h
  have hall : (combined insts q).all (fun i => i.relevance?.isSome) = true :=
    combined_all_itemDict q insts h
  simp only [search]
  rw [if_neg hq]
  simp only [hsl, List.nil_append, hall, if_true]

/-- C1: for a valid query and providers that all succeed with well-formed
items, `search` returns exactly the concatenation of all providers' result
items sorted ascending in the `relevance` field: the output is sorted by
`relevance` and is a permutation of the combined sequence. -/
theorem search_sorted_by_relevance (insts : List (String × Provider))
    (q : String) (hq : q.length ≠ 0) (h : ∀ np ∈ insts, okValid np.2 q) :
    (Indelve.search ⟨insts⟩ (.str q)).1
        = .ok (sortByRelevance (combined insts q))
    ∧ (sortByRelevance (combined insts q)).Pairwise
        (fun a b => relKey a ≤ relKey b)
    ∧ (sortByRelevance (combined insts q)).Perm (combined insts q) := by
  refine ⟨by rw [search_ok insts q hq h], ?_, ?_⟩
  · have hs := @List.sorted_mergeSort Item
      (fun a b => decide (relKey a ≤ relKey b))
      (by intro a b c hab hbc; simp only [decide_eq_true_eq] at hab hbc ⊢; omega)
      (by intro a b; simp only [Bool.or_eq_true, decide_eq_true_eq]; omega)
      (combined insts q)
    exact hs.imp (by intro a b hab; simpa using hab)
  · exact List.mergeSort_perm (combined insts q) _

unseal List.merge List.mergeSort in
/-- Witness for `search_sorted_by_relevance`: provider P1 returns items of
relevance 3 and 1, provider P2 one item of relevance 2; the output is in
relevance order 1, 2, 3. -/
theorem search_sorted_by_relevance_witness :
    ("a".length ≠ 0
      ∧ ∀ np ∈ [("p1", stubP1), ("p2", stubP2)], okValid np.2 "a")
    ∧ (Indelve.search ⟨[("p1", stubP1), ("p2", stubP2)]⟩ (.str "a")).1
        = .ok (sortByRelevance (combined [("p1", stubP1), ("p2", stubP2)] "a"))
    ∧ sortByRelevance (combined [("p1", stubP1), ("p2", stubP2)] "a")
        = [⟨some 1, 1⟩, ⟨some 2, 2⟩, ⟨some 3, 0⟩]
    ∧ List.map relKey (sortByRelevance (combined [("p1", stubP1), ("p2", stubP2)] "a"))
        = [1, 2, 3] := by
  have hvalid : ∀ np ∈ [("p1", stubP1), ("p2", stubP2)], okValid np.2 "a" := by
    intro np hnp
    fin_cases hnp
    · exact ⟨[⟨some 3, 0⟩, ⟨some 1, 1⟩], rfl, rfl⟩
    · exact ⟨[⟨some 2, 2⟩], rfl, rfl⟩
  have hq : "a".length ≠ 0 := by decide
  exact ⟨⟨hq, hvalid⟩,
    (search_sorted_by_relevance [("p1", stubP1), ("p2", stubP2)] "a" hq hvalid).1,
    rfl, rfl⟩

/-- A provider raising `ValueError` is skipped by the provider loop of
`search` exactly as if it were not in the table. -/
theorem searchLoop_skip_valueError (q : String) (n : String) (bad : Provider)
    (msg : String) (hbad : bad.search q = .error (.valueError msg)) :
    ∀ (pre post : List (String × Provider)) (acc : List Item),
      searchLoop q (pre ++ (n, bad) :: post) acc
        = searchLoop q (pre ++ post) acc := by
  intro pre
  induction pre with
  | nil =>
    intro post acc
    simp only [List.nil_append, searchLoop, hbad]
  | cons np pre ih =>
    intro post acc
    obtain ⟨n', p'⟩ := np
    simp only [List.cons_append, searchLoop]
    cases hps : p'.search q with
    | ok rs =>
      by_cases hacc : acc.all isItemDict
      · simp [hacc, ih]
      · simp [hacc]
    | error e =>
      cases e
      all_goals simp [ih]

/-- C5: a provider that raises `ValueError` ("invalid input") for a query
contributes zero items and does not abort the search: the result is the same
as without that provider, and — when the remaining providers all succeed with
well-formed items — every one of their items still appears in the returned
sequence. -/
theorem search_tolerates_invalid_input (q : String) (hq : q.length ≠ 0)
    (pre post : List (String × Provider)) (n : String) (bad : Provider)
    (msg : String) (hbad : bad.search q = .error (.valueError msg))
    (hothers : ∀ np ∈ pre ++ post, okValid np.2 q) :
    (Indelve.search ⟨pre ++ (n, bad) :: post⟩ (.str q)).1
        = (Indelve.search ⟨pre ++ post⟩ (.str q)).1
    ∧ (Indelve.search ⟨pre ++ (n, bad) :: post⟩ (.str q)).1
        = .ok (sortByRelevance (combined (pre ++ post) q))
    ∧ ∀ it ∈ combined (pre ++ post) q,
        it ∈ sortByRelevance (combined (pre ++ post) q) := by
  have e1 : (Indelve.search ⟨pre ++ (n, bad) :: post⟩ (.str q)).1
      = (Indelve.search ⟨pre ++ post⟩ (.str q)).1 := by
    simp only [search]
    rw [if_neg hq, if_neg hq, searchLoop_skip_valueError q n bad msg hbad pre post []]
    cases hsl : searchLoop q (pre ++ post) [] with
    | error e => simp
    | ok items =>
      by_cases hall : (items.all fun i => i.relevance?.isSome) = true
      · simp [hall]
      · simp [hall]
  have e2 : (Indelve.search ⟨pre ++ post⟩ (.str q)).1
      = .ok (sortByRelevance (combined (pre ++ post) q)) := by
    rw [search_ok (pre ++ post) q hq hothers]
  refine ⟨e1, e1.trans e2, ?_⟩
  intro it hit
  simpa [sortByRelevance] using hit

unseal List.merge List.mergeSort in
/-- Witness for `search_tolerates_invalid_input`: a `ValueError`-raising
provider between the two stub providers; both stubs' items still appear and
the result equals the two-provider result. -/
theorem search_tolerates_invalid_input_witness :
    ("a".length ≠ 0
      ∧ valueErrProvider.search "a" = .error (.valueError "bad query")
      ∧ ∀ np ∈ [("p1", stubP1)] ++ [("p2", stubP2)], okValid np.2 "a")
    ∧ (Indelve.search
          ⟨[("p1", stubP1)] ++ ("bad", valueErrProvider) :: [("p2", stubP2)]⟩
          (.str "a")).1
        = (Indelve.search ⟨[("p1", stubP1)] ++ [("p2", stubP2)]⟩ (.str "a")).1
    ∧ (Indelve.search
          ⟨[("p1", stubP1)] ++ ("bad", valueErrProvider) :: [("p2", stubP2)]⟩
          (.str "a")).1
        = .ok (sortByRelevance (combined ([("p1", stubP1)] ++ [("p2", stubP2)]) "a"))
    ∧ sortByRelevance (combined ([("p1", stubP1)] ++ [("p2", stubP2)]) "a")
        = [⟨some 1, 1⟩, ⟨some 2, 2⟩, ⟨some 3, 0⟩] := by
  have hvalid : ∀ np ∈ [("p1", stubP1)] ++ [("p2", stubP2)], okValid np.2 "a" := by
    intro np hnp
    fin_cases hnp
    · exact ⟨[⟨some 3, 0⟩, ⟨some 1, 1⟩], rfl, rfl⟩
    · exact ⟨[⟨some 2, 2⟩], rfl, rfl⟩
  have hq : "a".length ≠ 0 := by decide
  have happ := search_tolerates_invalid_input "a" hq
    [("p1", stubP1)] [("p2", stubP2)] "bad" valueErrProvider "bad query" rfl hvalid
  exact ⟨⟨hq, rfl, hvalid⟩, happ.1, happ.2.1, rfl⟩

end Indelve
